import Mathlib

/-!
Shallow embedding of `src/pywidevine/main.py`, command `license_`.

The command orchestrates: loading a device and CDM, optionally fetching a
service certificate (privacy mode), generating a license challenge, POSTing
it to the server, parsing the returned license, and printing one line per key.

The CDM (`pywidevine.cdm.Cdm`) is external to the file under verification and
is treated as an opaque interface: its operations are fields of a `Cdm`
structure.  The network (`requests.post`) is modelled as an oracle mapping
the index of the POST within the invocation to the `Response` the server
returns.  Running `license_` produces the trace of observable events
(POSTs, CDM calls, error logs, emitted key lines), which is what the
specification's claims quantify over.
-/

namespace Pywidevine

/-- Lowercase hexadecimal digit, as produced by Python's `bytes.hex()` and
`UUID.hex` (digits `0`-`9` then `a`-`f`). -/
def hexDigit (n : Nat) : Char :=
  if n < 10 then Char.ofNat (48 + n) else Char.ofNat (87 + n)

/-- Two-digit lowercase hexadecimal rendering of one byte. -/
def byteHex (b : Nat) : String :=
  String.mk [hexDigit (b / 16 % 16), hexDigit (b % 16)]

/-- Lowercase hexadecimal rendering of a byte string, as `bytes.hex()`
and `UUID.hex` produce in Python. -/
def bytesHex (bs : List Nat) : String :=
  String.join (bs.map byteHex)

/-- A key returned by `Cdm.parse_license`: usage type, key id bytes
(`key.kid`, a UUID, 16 bytes) and key material bytes (`key.key`). -/
structure Key where
  type : String
  kid : List Nat
  key : List Nat
  deriving DecidableEq

/-- A `requests` HTTP response: `status_code`, raw body bytes (`content`)
and decoded body text (`text`). -/
structure Response where
  status_code : Nat
  content : List Nat
  text : String
  deriving DecidableEq

/-- Opaque interface of `pywidevine.cdm.Cdm` as used by `main.py`:
the certificate-request blob `service_certificate_challenge`, challenge
generation `get_license_challenge` (taking the currently set service
certificate, if any, and the `privacy_mode` flag), and license parsing
`parse_license` (taking the current service certificate and the raw
license bytes, returning the keys in parse order). -/
structure Cdm where
  service_certificate_challenge : List Nat
  get_license_challenge : Option (List Nat) → Bool → List Nat
  parse_license : Option (List Nat) → List Nat → List Key

/-- Observable events of one `license_` invocation, in program order. -/
inductive Event where
  | post (url : String) (body : List Nat)
  | set_service_certificate (cert : List Nat)
  | get_license_challenge (privacy_mode : Bool)
  | parse_license (body : List Nat)
  | log_error (status : Nat) (text : String)
  | emit_key (line : String)
  deriving DecidableEq

/-- The output line printed for one key:
`f"[{key.type}] {key.kid.hex}:{key.key.hex()}"` (main.py line 112). -/
def keyLine (k : Key) : String :=
  "[" ++ k.type ++ "] " ++ bytesHex k.kid ++ ":" ++ bytesHex k.key

/-- main.py lines 89-112: the part of `license_` after the optional
certificate step.  `cert` is the service certificate set on the CDM (if
any) and `licence` is the response the server returns to the license POST.
The challenge is generated with `privacy_mode=True` (literally, as in the
source), POSTed as-is, and on a 200 response the raw body bytes are parsed
and one line per key is printed; on a non-200 response the status and text
are logged and the function returns. -/
def licenseRest (cdm : Cdm) (server : String) (cert : Option (List Nat))
    (licence : Response) : List Event :=
  let challenge := cdm.get_license_challenge cert true
  Event.get_license_challenge true :: Event.post server challenge ::
    (if licence.status_code ≠ 200 then
      [Event.log_error licence.status_code licence.text]
    else
      Event.parse_license licence.content ::
        (cdm.parse_license cert licence.content).map
          (fun k => Event.emit_key (keyLine k)))

/-- main.py lines 43-112, command `license_`: the full orchestration.
`net i` is the server's response to the `i`-th POST of the invocation
(all POSTs go to `server`).  With `--privacy`, the certificate challenge
is POSTed first; a non-200 status logs the error and returns, otherwise
the response body is set as the service certificate and the flow
continues with `licenseRest`. -/
def license_ (cdm : Cdm) (server : String) (privacy : Bool)
    (net : Nat → Response) : List Event :=
  if privacy then
    let service_cert := net 0
    if service_cert.status_code ≠ 200 then
      [Event.post server cdm.service_certificate_challenge,
       Event.log_error service_cert.status_code service_cert.text]
    else
      Event.post server cdm.service_certificate_challenge ::
        Event.set_service_certificate service_cert.content ::
          licenseRest cdm server (some service_cert.content) (net 1)
  else
    licenseRest cdm server none (net 0)

/-! ### Trace observations -/

/-- Projection selecting POST events. -/
def postProj : Event → Option (String × List Nat)
  | Event.post u b => some (u, b)
  | _ => none

/-- Projection selecting `set_service_certificate` events. -/
def certProj : Event → Option (List Nat)
  | Event.set_service_certificate c => some c
  | _ => none

/-- Projection selecting `get_license_challenge` events. -/
def chalProj : Event → Option Bool
  | Event.get_license_challenge b => some b
  | _ => none

/-- Projection selecting `parse_license` events. -/
def parseProj : Event → Option (List Nat)
  | Event.parse_license b => some b
  | _ => none

/-- Projection selecting `emit_key` events. -/
def emitProj : Event → Option String
  | Event.emit_key s => some s
  | _ => none

/-- Projection selecting `log_error` events. -/
def errProj : Event → Option (Nat × String)
  | Event.log_error s t => some (s, t)
  | _ => none

/-- The POSTs of a trace: (url, body) pairs in order. -/
def posts (tr : List Event) : List (String × List Nat) :=
  tr.filterMap postProj

/-- The service certificates set on the CDM, in order. -/
def certSets (tr : List Event) : List (List Nat) :=
  tr.filterMap certProj

/-- The `privacy_mode` flags passed to challenge generation, in order. -/
def challengeFlags (tr : List Event) : List Bool :=
  tr.filterMap chalProj

/-- The byte strings passed to `parse_license`, in order. -/
def parses (tr : List Event) : List (List Nat) :=
  tr.filterMap parseProj

/-- The key lines emitted, in order. -/
def emits (tr : List Event) : List String :=
  tr.filterMap emitProj

/-- The (status, text) pairs logged as errors, in order. -/
def logErrors (tr : List Event) : List (Nat × String) :=
  tr.filterMap errProj

/-- Key-emission events contribute no POSTs. -/
@[simp] theorem filterMap_postProj_emitKeys (g : Key → String) (l : List Key) :
    List.filterMap (postProj ∘ fun k => Event.emit_key (g k)) l = [] := by
  induction l with
  | nil => rfl
  | cons k l ih => simp [Function.comp, postProj, ih]

/-- Key-emission events contribute no certificate sets. -/
@[simp] theorem filterMap_certProj_emitKeys (g : Key → String) (l : List Key) :
    List.filterMap (certProj ∘ fun k => Event.emit_key (g k)) l = [] := by
  induction l with
  | nil => rfl
  | cons k l ih => simp [Function.comp, certProj, ih]

/-- Key-emission events contribute no challenge generations. -/
@[simp] theorem filterMap_chalProj_emitKeys (g : Key → String) (l : List Key) :
    List.filterMap (chalProj ∘ fun k => Event.emit_key (g k)) l = [] := by
  induction l with
  | nil => rfl
  | cons k l ih => simp [Function.comp, chalProj, ih]

/-- Key-emission events contribute no parses. -/
@[simp] theorem filterMap_parseProj_emitKeys (g : Key → String) (l : List Key) :
    List.filterMap (parseProj ∘ fun k => Event.emit_key (g k)) l = [] := by
  induction l with
  | nil => rfl
  | cons k l ih => simp [Function.comp, parseProj, ih]

/-- Key-emission events contribute no error logs. -/
@[simp] theorem filterMap_errProj_emitKeys (g : Key → String) (l : List Key) :
    List.filterMap (errProj ∘ fun k => Event.emit_key (g k)) l = [] := by
  induction l with
  | nil => rfl
  | cons k l ih => simp [Function.comp, errProj, ih]

/-- The lines carried by a list of key-emission events. -/
@[simp] theorem filterMap_emitProj_emitKeys (g : Key → String) (l : List Key) :
    List.filterMap (emitProj ∘ fun k => Event.emit_key (g k)) l = l.map g := by
  induction l with
  | nil => rfl
  | cons k l ih => simp [Function.comp, emitProj, ih]

/-- Index of the first event satisfying `p`, if any. -/
def firstIdx (p : Event → Bool) : List Event → Option Nat
  | [] => none
  | e :: tr => if p e then some 0 else (firstIdx p tr).map (· + 1)

/-- Whether an event is a `set_service_certificate` call. -/
def isSet : Event → Bool
  | Event.set_service_certificate _ => true
  | _ => false

/-- Whether an event is a `get_license_challenge` call. -/
def isChal : Event → Bool
  | Event.get_license_challenge _ => true
  | _ => false

/-- The service certificate in effect after the optional certificate step:
`some` of the certificate response body when `--privacy` is set, `none`
otherwise (only meaningful on invocations that pass the certificate step). -/
def certState (privacy : Bool) (net : Nat → Response) : Option (List Nat) :=
  if privacy then some (net 0).content else none

/-- The response the server returns to the license POST: the second POST
when `--privacy` is set, the first otherwise (only meaningful on
invocations that reach the license exchange). -/
def licenseResp (privacy : Bool) (net : Nat → Response) : Response :=
  if privacy then net 1 else net 0

/-! ### Concrete fixtures for witnesses and counterexamples -/

/-- A concrete CDM used to evaluate the theorems at concrete inputs. -/
def cdm0 : Cdm where
  service_certificate_challenge := [1, 2]
  get_license_challenge := fun _ _ => [3, 4, 5]
  parse_license := fun _ _ => [⟨"CONTENT", [0, 171], [205, 15]⟩]

/-- A network where every exchange succeeds with status 200. -/
def netOK : Nat → Response := fun i => ⟨200, [6, i], "ok"⟩

/-- A network where every exchange fails with status 500. -/
def netFail : Nat → Response := fun _ => ⟨500, [], "err"⟩

/-- A network where the first exchange succeeds and the second fails. -/
def netLicFail : Nat → Response := fun i =>
  if i = 0 then ⟨200, [9], "ok"⟩ else ⟨404, [], "not found"⟩

/-! ### Shared structural lemmas -/

/-- Full characterization of the POSTs an invocation performs: one license
POST in the non-privacy path; in the privacy path the certificate POST,
followed by the license POST exactly when the certificate fetch returned
status 200. -/
theorem posts_license_eq (cdm : Cdm) (server : String) (privacy : Bool)
    (net : Nat → Response) :
    posts (license_ cdm server privacy net) =
      if privacy then
        if (net 0).status_code = 200 then
          [(server, cdm.service_certificate_challenge),
           (server, cdm.get_license_challenge (some (net 0).content) true)]
        else
          [(server, cdm.service_certificate_challenge)]
      else
        [(server, cdm.get_license_challenge none true)] := by
  cases privacy with
  | false =>
    by_cases h : (net 0).status_code = 200 <;>
      simp [license_, licenseRest, posts, postProj, h]
  | true =>
    by_cases h : (net 0).status_code = 200 <;>
      by_cases h1 : (net 1).status_code = 200 <;>
        simp [license_, licenseRest, posts, postProj, h, h1]

/-! ### Claims -/

/-- C1 (amended): in every invocation that reaches challenge generation, the
`privacy_mode` argument passed to `get_license_challenge` is `true` — the
source hardcodes `privacy_mode=True` (main.py line 90) in the privacy and
the non-privacy path alike, rather than passing the caller's `--privacy`
value through. -/
theorem challenge_privacy_mode_always_true (cdm : Cdm) (server : String)
    (privacy : Bool) (net : Nat → Response)
    (h : privacy = false ∨ (net 0).status_code = 200) :
    challengeFlags (license_ cdm server privacy net) = [true] := by
  cases privacy with
  | false =>
    by_cases h0 : (net 0).status_code = 200 <;>
      simp [license_, licenseRest, challengeFlags, chalProj, h0]
  | true =>
    have h0 : (net 0).status_code = 200 := by
      rcases h with h | h
      · exact absurd h (by simp)
      · exact h
    by_cases h1 : (net 1).status_code = 200 <;>
      simp [license_, licenseRest, challengeFlags, chalProj, h0, h1]

/-- C1 witness: the non-privacy invocation on the concrete fixtures passes
flag `true` to challenge generation. -/
theorem challenge_privacy_mode_always_true_witness :
    challengeFlags (license_ cdm0 "s" false netOK) = [true] :=
  challenge_privacy_mode_always_true cdm0 "s" false netOK (Or.inl rfl)

/-- C1 counterexample: with `--privacy` false the flag passed to challenge
generation is not `false`, refuting "the privacy flag is passed through
unchanged". -/
theorem challenge_privacy_mode_not_caller_flag :
    ¬ challengeFlags (license_ cdm0 "s" false netOK) = [false] := by
  decide

/-- C2 (amended): with `--privacy` false the invocation performs exactly one
network exchange, the license POST; with `--privacy` true it performs the
certificate POST first and the license POST second exactly when the
certificate fetch returned 200, and only the certificate POST otherwise. -/
theorem network_exchange_schedule (cdm : Cdm) (server : String)
    (privacy : Bool) (net : Nat → Response) :
    posts (license_ cdm server privacy net) =
      if privacy then
        if (net 0).status_code = 200 then
          [(server, cdm.service_certificate_challenge),
           (server, cdm.get_license_challenge (some (net 0).content) true)]
        else
          [(server, cdm.service_certificate_challenge)]
      else
        [(server, cdm.get_license_challenge none true)] :=
  posts_license_eq cdm server privacy net

/-- C2 counterexample: with `--privacy` true and a failing certificate
fetch, the invocation performs one exchange, not two. -/
theorem network_exchanges_not_always_two :
    ¬ (posts (license_ cdm0 "s" true netFail)).length = 2 := by
  decide

/-- C3: with `--privacy` true and a certificate response whose status is not
200, no service certificate is set, no challenge is generated, no further
POST occurs (the certificate POST stays the only one), no license is
parsed and no key is emitted. -/
theorem cert_fail_skips_subsequent_steps (cdm : Cdm) (server : String)
    (net : Nat → Response) (h : (net 0).status_code ≠ 200) :
    certSets (license_ cdm server true net) = [] ∧
    challengeFlags (license_ cdm server true net) = [] ∧
    (posts (license_ cdm server true net)).length = 1 ∧
    parses (license_ cdm server true net) = [] ∧
    emits (license_ cdm server true net) = [] := by
  simp [license_, certSets, challengeFlags, posts, parses, emits,
    certProj, chalProj, postProj, parseProj, emitProj, h]

/-- C3 witness: evaluated on the all-failing network. -/
theorem cert_fail_skips_subsequent_steps_witness :
    certSets (license_ cdm0 "s" true netFail) = [] ∧
    challengeFlags (license_ cdm0 "s" true netFail) = [] ∧
    (posts (license_ cdm0 "s" true netFail)).length = 1 ∧
    parses (license_ cdm0 "s" true netFail) = [] ∧
    emits (license_ cdm0 "s" true netFail) = [] :=
  cert_fail_skips_subsequent_steps cdm0 "s" netFail (by decide)

/-- C4: in every invocation that reaches the license exchange and receives a
status other than 200, `parse_license` is never called and zero keys are
emitted. -/
theorem license_fail_no_parse_no_keys (cdm : Cdm) (server : String)
    (privacy : Bool) (net : Nat → Response)
    (hreach : privacy = false ∨ (net 0).status_code = 200)
    (h : (licenseResp privacy net).status_code ≠ 200) :
    parses (license_ cdm server privacy net) = [] ∧
    emits (license_ cdm server privacy net) = [] := by
  cases privacy with
  | false =>
    have h1 : (net 0).status_code ≠ 200 := by simpa [licenseResp] using h
    simp [license_, licenseRest, parses, emits, parseProj, emitProj, h1]
  | true =>
    have h0 : (net 0).status_code = 200 := by
      rcases hreach with h' | h'
      · exact absurd h' (by simp)
      · exact h'
    have h1 : (net 1).status_code ≠ 200 := by simpa [licenseResp] using h
    simp [license_, licenseRest, parses, emits, parseProj, emitProj, h0, h1]

/-- C4 witness: evaluated on the all-failing network without privacy. -/
theorem license_fail_no_parse_no_keys_witness :
    parses (license_ cdm0 "s" false netFail) = [] ∧
    emits (license_ cdm0 "s" false netFail) = [] :=
  license_fail_no_parse_no_keys cdm0 "s" false netFail (Or.inl rfl) (by decide)

/-- C5: `set_service_certificate` is called if and only if `--privacy` is
true and the certificate fetch returned 200; in that case it is called
exactly once (with the certificate response body) and the call precedes
challenge generation (trace index 1 versus 2). -/
theorem set_service_certificate_iff_privacy_ok (cdm : Cdm) (server : String)
    (privacy : Bool) (net : Nat → Response) :
    certSets (license_ cdm server privacy net) =
      (if privacy = true ∧ (net 0).status_code = 200
        then [(net 0).content] else []) ∧
    (privacy = true → (net 0).status_code = 200 →
      firstIdx isSet (license_ cdm server privacy net) = some 1 ∧
      firstIdx isChal (license_ cdm server privacy net) = some 2) := by
  cases privacy with
  | false =>
    by_cases h0 : (net 0).status_code = 200 <;>
      simp [license_, licenseRest, certSets, certProj, h0]
  | true =>
    by_cases h0 : (net 0).status_code = 200
    · by_cases h1 : (net 1).status_code = 200 <;>
        simp [license_, licenseRest, certSets, certProj, firstIdx, isSet, isChal,
          h0, h1]
    · simp [license_, licenseRest, certSets, certProj, firstIdx, isSet, isChal, h0]

/-- C5 witness: on the all-succeeding network with privacy, the certificate
set precedes challenge generation. -/
theorem set_service_certificate_iff_privacy_ok_witness :
    firstIdx isSet (license_ cdm0 "s" true netOK) = some 1 ∧
    firstIdx isChal (license_ cdm0 "s" true netOK) = some 2 :=
  (set_service_certificate_iff_privacy_ok cdm0 "s" true netOK).2 rfl rfl

/-- C6: in every invocation that reaches the license exchange, the body of
the license POST (the last POST of the trace) is byte-for-byte the value
`get_license_challenge` returned, and on a 200 response `parse_license`
receives byte-for-byte the response body; neither direction is
transformed in transport. -/
theorem transport_bytes_unchanged (cdm : Cdm) (server : String)
    (privacy : Bool) (net : Nat → Response)
    (h : privacy = false ∨ (net 0).status_code = 200) :
    (posts (license_ cdm server privacy net)).getLast? =
      some (server, cdm.get_license_challenge (certState privacy net) true) ∧
    parses (license_ cdm server privacy net) =
      (if (licenseResp privacy net).status_code = 200
        then [(licenseResp privacy net).content] else []) := by
  cases privacy with
  | false =>
    by_cases h0 : (net 0).status_code = 200 <;>
      simp [license_, licenseRest, posts, parses, postProj, parseProj,
        certState, licenseResp, h0]
  | true =>
    have h0 : (net 0).status_code = 200 := by
      rcases h with h' | h'
      · exact absurd h' (by simp)
      · exact h'
    by_cases h1 : (net 1).status_code = 200 <;>
      simp [license_, licenseRest, posts, parses, postProj, parseProj,
        certState, licenseResp, h0, h1]

/-- C6 witness: evaluated on the all-succeeding network without privacy. -/
theorem transport_bytes_unchanged_witness :
    (posts (license_ cdm0 "s" false netOK)).getLast? =
      some ("s", cdm0.get_license_challenge (certState false netOK) true) ∧
    parses (license_ cdm0 "s" false netOK) =
      (if (licenseResp false netOK).status_code = 200
        then [(licenseResp false netOK).content] else []) :=
  transport_bytes_unchanged cdm0 "s" false netOK (Or.inl rfl)

/-- C7: in every invocation whose license exchange returns 200, exactly one
line is emitted per parsed key, in parse order, each of the form
`[<type>] <kid-hex>:<key-hex>` with kid and key rendered in lowercase
hexadecimal; no aggregation or deduplication. -/
theorem key_lines_in_parse_order (cdm : Cdm) (server : String)
    (privacy : Bool) (net : Nat → Response)
    (hreach : privacy = false ∨ (net 0).status_code = 200)
    (hlic : (licenseResp privacy net).status_code = 200) :
    emits (license_ cdm server privacy net) =
      (cdm.parse_license (certState privacy net)
          (licenseResp privacy net).content).map
        (fun k => "[" ++ k.type ++ "] " ++ bytesHex k.kid ++ ":" ++ bytesHex k.key) := by
  cases privacy with
  | false =>
    have h0 : (net 0).status_code = 200 := by simpa [licenseResp] using hlic
    simp [license_, licenseRest, emits, emitProj, certState, licenseResp, keyLine, h0]
  | true =>
    have h0 : (net 0).status_code = 200 := by
      rcases hreach with h' | h'
      · exact absurd h' (by simp)
      · exact h'
    have h1 : (net 1).status_code = 200 := by simpa [licenseResp] using hlic
    simp [license_, licenseRest, emits, emitProj, certState, licenseResp, keyLine,
      h0, h1]

/-- C7 witness: evaluated on the all-succeeding network without privacy. -/
theorem key_lines_in_parse_order_witness :
    emits (license_ cdm0 "s" false netOK) =
      (cdm0.parse_license (certState false netOK)
          (licenseResp false netOK).content).map
        (fun k => "[" ++ k.type ++ "] " ++ bytesHex k.kid ++ ":" ++ bytesHex k.key) :=
  key_lines_in_parse_order cdm0 "s" false netOK (Or.inl rfl) (by decide)

/-- C8 (amended): challenge generation and license parsing each occur at
most once per invocation; challenge generation occurs exactly once
whenever the invocation is not aborted by a failed certificate fetch, and
license parsing occurs exactly once whenever additionally the license
exchange returns 200. -/
theorem challenge_parse_at_most_once (cdm : Cdm) (server : String)
    (privacy : Bool) (net : Nat → Response) :
    (challengeFlags (license_ cdm server privacy net)).length ≤ 1 ∧
    (parses (license_ cdm server privacy net)).length ≤ 1 ∧
    ((privacy = false ∨ (net 0).status_code = 200) →
      (challengeFlags (license_ cdm server privacy net)).length = 1 ∧
      ((licenseResp privacy net).status_code = 200 →
        (parses (license_ cdm server privacy net)).length = 1)) := by
  cases privacy with
  | false =>
    by_cases h0 : (net 0).status_code = 200 <;>
      simp [license_, licenseRest, challengeFlags, parses, chalProj, parseProj,
        licenseResp, h0]
  | true =>
    by_cases h0 : (net 0).status_code = 200
    · by_cases h1 : (net 1).status_code = 200 <;>
        simp [license_, licenseRest, challengeFlags, parses, chalProj, parseProj,
          licenseResp, h0, h1]
    · simp [license_, licenseRest, challengeFlags, parses, chalProj, parseProj,
        licenseResp, h0]

/-- C8 witness: on the all-succeeding network without privacy, challenge
generation and license parsing each occur exactly once. -/
theorem challenge_parse_at_most_once_witness :
    (challengeFlags (license_ cdm0 "s" false netOK)).length = 1 ∧
    (parses (license_ cdm0 "s" false netOK)).length = 1 := by
  have h := (challenge_parse_at_most_once cdm0 "s" false netOK).2.2 (Or.inl rfl)
  exact ⟨h.1, h.2 (by decide)⟩

/-- C8 counterexample: with `--privacy` true and a failing certificate
fetch, challenge generation does not occur, refuting "exactly once in
every invocation". -/
theorem challenge_generation_skipped_on_cert_fail :
    ¬ (challengeFlags (license_ cdm0 "s" true netFail)).length = 1 := by
  decide

/-- C9: when an exchange returns a status other than 200 the orchestrator
logs exactly that status code and response text and returns normally with
no keys emitted (the embedding is a total function: both failure branches
produce a trace rather than an exception, mirroring the source's plain
`return`). -/
theorem fail_logged_then_normal_return (cdm : Cdm) (server : String)
    (privacy : Bool) (net : Nat → Response) :
    (privacy = true → (net 0).status_code ≠ 200 →
      logErrors (license_ cdm server privacy net) =
        [((net 0).status_code, (net 0).text)] ∧
      emits (license_ cdm server privacy net) = []) ∧
    ((privacy = false ∨ (net 0).status_code = 200) →
      (licenseResp privacy net).status_code ≠ 200 →
      logErrors (license_ cdm server privacy net) =
        [((licenseResp privacy net).status_code, (licenseResp privacy net).text)] ∧
      emits (license_ cdm server privacy net) = []) := by
  cases privacy with
  | false =>
    by_cases h0 : (net 0).status_code = 200 <;>
      simp [license_, licenseRest, logErrors, emits, errProj, emitProj,
        licenseResp, h0]
  | true =>
    by_cases h0 : (net 0).status_code = 200
    · by_cases h1 : (net 1).status_code = 200 <;>
        simp [license_, licenseRest, logErrors, emits, errProj, emitProj,
          licenseResp, h0, h1]
    · simp [license_, licenseRest, logErrors, emits, errProj, emitProj,
        licenseResp, h0]

/-- C9 witness: a failing certificate exchange logs status 500 with its
text and emits no keys. -/
theorem fail_logged_then_normal_return_witness :
    logErrors (license_ cdm0 "s" true netFail) = [(500, "err")] ∧
    emits (license_ cdm0 "s" true netFail) = [] :=
  (fail_logged_then_normal_return cdm0 "s" true netFail).1 rfl (by decide)

/-- C10: every POST of an invocation goes to the single server-url
argument; the certificate challenge (when present) and the license
challenge share the same endpoint. -/
theorem all_posts_to_server_url (cdm : Cdm) (server : String)
    (privacy : Bool) (net : Nat → Response) :
    (posts (license_ cdm server privacy net)).map Prod.fst =
      List.replicate (posts (license_ cdm server privacy net)).length server := by
  rw [posts_license_eq]
  cases privacy with
  | false => simp [List.replicate]
  | true =>
    by_cases h0 : (net 0).status_code = 200 <;> simp [h0, List.replicate]

end Pywidevine
